import Mathlib

/-!
# Elektroroller-Monitor: stopwatch, signal conditioner and display refresh

Shallow embedding of `src/main.cpp`.  The sketch keeps all of its state in
globals; here they are the fields of `State`, and every function of the sketch
is a function from `State` to `State`.  What the hardware supplies (button
level, millisecond clock, temperatures, ADC count) is an explicit argument.

Conventions of the embedding:
* `unsigned long` is a `Nat` below `2^32`; `millis() - startTime` is the
  wrapping subtraction `sub32`.
* `int` is an `Int`; `buttonPressCount++` wraps as a 16-bit two's complement
  value (`wrapInt`), the behaviour of the AVR tool chain.
* `float` values are finite binary32 numbers (`F32`); every arithmetic
  operation rounds to nearest, ties to even.  `double` has the same 32-bit
  format on AVR, so the constant `5.0 / 1023.0` is a binary32 division.
  Infinities, NaN and the sign of zero are not represented: no value of the
  sketch overflows, the only divisor is the non-zero `SENSITIVITY`, and no
  comparison depends on the sign of zero.
* The display is the list of driver calls issued so far (`State.tft`).
* The serial telemetry and the final `delay(100)` touch none of the globals
  and are left out, and so is `setup`, which only draws the static labels.
-/

namespace Monitor

/-! ## Platform constants -/

/-- Arduino logic level `HIGH`. -/
def HIGH : Int := 1

/-- Arduino logic level `LOW`. -/
def LOW : Int := 0

/-- Number of values of an `unsigned long` (32 bits). -/
def U32 : Nat := 4294967296

/-- Wrapping subtraction of two `unsigned long` values. -/
def sub32 (a b : Nat) : Nat := (a % U32 + U32 - b % U32) % U32

/-- Wrap an integer into the range of a 16-bit `int`. -/
def wrapInt (x : Int) : Int := (x + 32768) % 65536 - 32768

/-! ## Binary32 arithmetic -/

/-- Number of units in `1.0`: a binary32 value is stored as a multiple of
`2^-149`, the smallest positive binary32 number. -/
def UNIT : Nat := 2 ^ 149

/-- A finite binary32 value `x`, stored as the integer `x * 2^149`. -/
structure F32 where
  units : Int
  deriving DecidableEq, Repr

/-- One step of `bitLength`: if `p.1` has more than `k` bits, drop `k` of them
and count them in `p.2`. -/
def bitStep (k : Nat) (p : Nat × Nat) : Nat × Nat :=
  if 2 ^ k ≤ p.1 then (p.1 / 2 ^ k, p.2 + k) else p

/-- Number of binary digits of `n`, for `n` below `2^512` (every quotient that
arises from finite binary32 operands is). -/
def bitLength (n : Nat) : Nat :=
  let p := bitStep 1 (bitStep 2 (bitStep 4 (bitStep 8 (bitStep 16 (bitStep 32 (bitStep 64
    (bitStep 128 (bitStep 256 (n, 0)))))))))
  p.2 + (if p.1 = 0 then 0 else 1)

/-- Round the non-negative rational `n / d`, counted in units of `2^-149`, to
the nearest binary32 value, ties to even.  With `s` the number of bits by which
the integer part exceeds the 24-bit significand, the representable values
around `n / d` are the multiples of `2^s`; `m` is the multiple below and `r`
the remainder. -/
def roundNat (n d : Nat) : Nat :=
  let q := n / d
  let s := bitLength q - 24
  let m := n / (d * 2 ^ s)
  let r := n % (d * 2 ^ s)
  let m := if d * 2 ^ s < 2 * r ∨ (2 * r = d * 2 ^ s ∧ m % 2 = 1) then m + 1 else m
  m * 2 ^ s

/-- Round the rational `num / den`, counted in units of `2^-149`, to binary32. -/
def F32.round (num : Int) (den : Nat) : F32 :=
  if num < 0 then ⟨-(roundNat num.natAbs den : Int)⟩ else ⟨(roundNat num.natAbs den : Int)⟩

/-- The binary32 value of the decimal literal `num / den`. -/
def F32.lit (num : Int) (den : Nat) : F32 := F32.round (num * (UNIT : Int)) den

/-- Conversion of an `int` to binary32. -/
def F32.ofInt (n : Int) : F32 := F32.round (n * (UNIT : Int)) 1

/-- Binary32 subtraction. -/
def F32.sub (a b : F32) : F32 := F32.round (a.units - b.units) 1

/-- Binary32 multiplication. -/
def F32.mul (a b : F32) : F32 := F32.round (a.units * b.units) UNIT

/-- Binary32 division by a non-zero divisor (a zero divisor, which the sketch
never has, yields zero here). -/
def F32.div (a b : F32) : F32 :=
  if b.units = 0 then ⟨0⟩
  else F32.round (a.units * (UNIT : Int) * b.units.sign) b.units.natAbs

/-- Binary32 negation. -/
def F32.neg (a : F32) : F32 := ⟨-a.units⟩

instance : Sub F32 := ⟨F32.sub⟩

instance : Mul F32 := ⟨F32.mul⟩

instance : Div F32 := ⟨F32.div⟩

instance : Neg F32 := ⟨F32.neg⟩

instance : LT F32 := ⟨fun a b => a.units < b.units⟩

instance (a b : F32) : Decidable (a < b) := by
  show Decidable (a.units < b.units)
  infer_instance

/-- The rational number a binary32 value stands for. -/
def F32.toRat (a : F32) : ℚ := (a.units : ℚ) / 2 ^ 149

/-- The binary32 value `m / 2^e`, for a significand `m` below `2^24` in
absolute value and `e` at most 149. -/
def F32.dyadic (m : Int) (e : Nat) : F32 := ⟨m * ((2 ^ (149 - e) : Nat) : Int)⟩

/-- The `abs` of `Arduino.h`: `((x)>0?(x):-(x))`. -/
def arduinoAbs (x : F32) : F32 := if F32.ofInt 0 < x then x else -x

/-! ## Constants of the sketch -/

/-- Quiescent output voltage of the current sensor. -/
def QOV : F32 := F32.lit 25 10

/-- Volts per ampere of the current sensor. -/
def SENSITIVITY : F32 := F32.lit 4 100

/-- Half width of the dead zone around `QOV`. -/
def DEADZONE_THRESHOLD : F32 := F32.lit 2 100

/-! ## Display driver calls -/

/-- The two text colours the sketch uses. -/
inductive Color where
  | WHITE
  | BLACK
  deriving DecidableEq, Repr

/-- One call on the `tft` object. -/
inductive TftCall where
  | setCursor (x y : Nat)
  | setTextColor (c : Color)
  | printStr (s : String)
  | printUInt (n : Nat)
  | printFloat (v : F32) (digits : Nat)
  deriving DecidableEq, Repr

/-! ## Globals -/

/-- The globals of the sketch, plus the log of display calls. -/
structure State where
  voltage_raw : F32
  current : F32
  startTime : Nat
  elapsedTime : Nat
  running : Bool
  buttonState : Int
  lastButtonState : Int
  buttonPressCount : Int
  prevTempA2 : F32
  prevTempA3 : F32
  prevVoltage : F32
  prevCurrent : F32
  prevElapsedTime : Nat
  tft : List TftCall
  deriving DecidableEq, Repr

/-- The initialisers of the globals (uninitialised `float`s are zero). -/
def init : State :=
  { voltage_raw := ⟨0⟩
    current := ⟨0⟩
    startTime := 0
    elapsedTime := 0
    running := false
    buttonState := 0
    lastButtonState := LOW
    buttonPressCount := 0
    prevTempA2 := F32.ofInt (-1000)
    prevTempA3 := F32.ofInt (-1000)
    prevVoltage := F32.ofInt (-1000)
    prevCurrent := F32.ofInt (-1000)
    prevElapsedTime := 0
    tft := [] }

/-! ## Stopwatch controller -/

/-- Body of `checkButtonState`; `sample` is what `digitalRead(BUTTON_PIN)`
returns and `now` what `millis()` returns if it is called. -/
def checkButtonState (s : State) (sample : Int) (now : Nat) : State :=
  let s := { s with buttonState := sample }
  let s :=
    if s.buttonState = HIGH ∧ s.lastButtonState = LOW then
      let s := { s with buttonPressCount := wrapInt (s.buttonPressCount + 1) }
      if s.buttonPressCount = 1 then
        { s with running := true, startTime := now % U32 }
      else if s.buttonPressCount = 2 then
        { s with running := false, elapsedTime := sub32 now s.startTime }
      else if s.buttonPressCount = 3 then
        { s with buttonPressCount := 0, elapsedTime := 0, startTime := 0, running := false }
      else s
    else s
  { s with lastButtonState := s.buttonState }

/-- The update at the top of `loop`: `if (running) elapsedTime = millis() - startTime;`. -/
def runningUpdate (s : State) (now : Nat) : State :=
  if s.running = true then { s with elapsedTime := sub32 now s.startTime } else s

/-- One call of `checkButtonState`: the button level and the clock at that moment. -/
structure Poll where
  sample : Int
  now : Nat
  deriving DecidableEq, Repr

/-- A sequence of `checkButtonState` calls. -/
def pollMany (s : State) : List Poll → State
  | [] => s
  | p :: ps => pollMany (checkButtonState s p.sample p.now) ps

/-- Number of rising edges in a sequence of samples whose predecessor was `last`:
a sample is a rising edge when it is `HIGH` and the sample before it is `LOW`. -/
def risingEdges (last : Int) : List Poll → Nat
  | [] => 0
  | p :: ps => (if p.sample = HIGH ∧ last = LOW then 1 else 0) + risingEdges p.sample ps

/-- The two things that touch the stopwatch globals: a `checkButtonState` call
and the running update of `loop`. -/
inductive Action where
  | check (sample : Int) (now : Nat)
  | update (now : Nat)
  deriving DecidableEq, Repr

/-- Effect of one action. -/
def step (s : State) : Action → State
  | .check sample now => checkButtonState s sample now
  | .update now => runningUpdate s now

/-- Effect of a sequence of actions, in order. -/
def exec (s : State) : List Action → State
  | [] => s
  | a :: as => exec (step s a) as

/-! ## Signal conditioner -/

/-- Right-hand side of line 171: `(5.0 / 1023.0) * analogRead(VIN)`, where
`adc` is what `analogRead` returns. -/
def voltsOf (adc : Nat) : F32 := (F32.lit 5 1 / F32.lit 1023 1) * F32.ofInt (adc : Int)

/-- Lines 175 to 180 of `loop` as a function of `voltage_diff`: the value
assigned to `current`. -/
def currentOfDiff (voltage_diff : F32) : F32 :=
  if arduinoAbs voltage_diff < DEADZONE_THRESHOLD then F32.lit 0 1
  else voltage_diff / SENSITIVITY

/-- Lines 173 to 180 of `loop` as a function of `voltage_raw`: the value
assigned to `current`. -/
def currentOf (voltage_raw : F32) : F32 :=
  let voltage_diff := voltage_raw - QOV
  currentOfDiff voltage_diff

/-- Lines 171 to 180 of `loop`: read the voltage and compute the current;
`adc` is what `analogRead(VIN)` returns. -/
def readCurrent (s : State) (adc : Nat) : State :=
  let s := { s with voltage_raw := voltsOf adc }
  { s with current := currentOf s.voltage_raw }

/-! ## Display -/

/-- Issue one call on the display. -/
def emit (s : State) (c : TftCall) : State := { s with tft := s.tft ++ [c] }

/-- Body of `displayTime`. -/
def displayTime (s : State) (elapsed : Nat) : State :=
  let minutes := (elapsed / 60000) % 60
  let seconds := (elapsed / 1000) % 60
  let milliseconds := (elapsed % 1000) / 10
  let s := emit s (.setCursor 44 130)
  let s := emit s (.setTextColor .WHITE)
  let s := emit s (.printUInt (s.prevElapsedTime / 60000))
  let s := emit s (.printStr ":")
  let s := if (s.prevElapsedTime / 1000) % 60 < 10 then emit s (.printStr "0") else s
  let s := emit s (.printUInt ((s.prevElapsedTime / 1000) % 60))
  let s := emit s (.printStr ":")
  let s := if (s.prevElapsedTime % 1000) / 10 < 10 then emit s (.printStr "0") else s
  let s := emit s (.printUInt ((s.prevElapsedTime % 1000) / 10))
  let s := emit s (.setCursor 44 130)
  let s := emit s (.setTextColor .BLACK)
  let s := emit s (.printUInt minutes)
  let s := emit s (.printStr ":")
  let s := if seconds < 10 then emit s (.printStr "0") else s
  let s := emit s (.printUInt seconds)
  let s := emit s (.printStr ":")
  let s := if milliseconds < 10 then emit s (.printStr "0") else s
  emit s (.printUInt milliseconds)

/-- Render block of temperature A2 ("Bat"). -/
def renderTempA2 (s : State) (tempA2 : F32) : State :=
  if tempA2 ≠ s.prevTempA2 then
    let s := emit s (.setCursor 55 10)
    let s := emit s (.setTextColor .WHITE)
    let s := emit s (.printFloat s.prevTempA2 2)
    let s := emit s (.setCursor 55 10)
    let s := emit s (.setTextColor .BLACK)
    let s := emit s (.printFloat tempA2 2)
    { s with prevTempA2 := tempA2 }
  else s

/-- Render block of temperature A3 ("Mo"). -/
def renderTempA3 (s : State) (tempA3 : F32) : State :=
  if tempA3 ≠ s.prevTempA3 then
    let s := emit s (.setCursor 50 40)
    let s := emit s (.setTextColor .WHITE)
    let s := emit s (.printFloat s.prevTempA3 2)
    let s := emit s (.setCursor 50 40)
    let s := emit s (.setTextColor .BLACK)
    let s := emit s (.printFloat tempA3 2)
    { s with prevTempA3 := tempA3 }
  else s

/-- Render block of the voltage; `voltage_diff` is the local of `loop`. -/
def renderVoltage (s : State) (voltage_diff : F32) : State :=
  if voltage_diff ≠ s.prevVoltage then
    let s := emit s (.setCursor 40 70)
    let s := emit s (.setTextColor .WHITE)
    let s := emit s (.printFloat s.prevVoltage 3)
    let s := emit s (.setCursor 40 70)
    let s := emit s (.setTextColor .BLACK)
    let s := emit s (.printFloat s.voltage_raw 3)
    { s with prevVoltage := s.voltage_raw }
  else s

/-- Render block of the current. -/
def renderCurrent (s : State) : State :=
  if s.current ≠ s.prevCurrent then
    let s := emit s (.setCursor 40 100)
    let s := emit s (.setTextColor .WHITE)
    let s := emit s (.printFloat s.prevCurrent 2)
    let s := emit s (.setCursor 40 100)
    let s := emit s (.setTextColor .BLACK)
    let s := emit s (.printFloat s.current 2)
    { s with prevCurrent := s.current }
  else s

/-- Render block of the timer. -/
def renderTimer (s : State) : State :=
  if s.elapsedTime ≠ s.prevElapsedTime then
    let s := displayTime s s.elapsedTime
    { s with prevElapsedTime := s.elapsedTime }
  else s

/-! ## The main loop -/

/-- What the hardware supplies during one iteration of `loop`: the eight button
polls in program order, the clock read by the running update, the two
temperatures and the ADC count of `analogRead(VIN)`. -/
structure LoopInput where
  p1 : Poll
  nowRun : Nat
  p2 : Poll
  tempA2 : F32
  tempA3 : F32
  p3 : Poll
  adc : Nat
  p4 : Poll
  p5 : Poll
  p6 : Poll
  p7 : Poll
  p8 : Poll
  deriving DecidableEq, Repr

/-- The eight polls of an iteration, in program order. -/
def LoopInput.polls (i : LoopInput) : List Poll :=
  [i.p1, i.p2, i.p3, i.p4, i.p5, i.p6, i.p7, i.p8]

/-- The actions of an iteration on the stopwatch globals, in program order. -/
def LoopInput.actions (i : LoopInput) : List Action :=
  [.check i.p1.sample i.p1.now, .update i.nowRun, .check i.p2.sample i.p2.now,
   .check i.p3.sample i.p3.now, .check i.p4.sample i.p4.now, .check i.p5.sample i.p5.now,
   .check i.p6.sample i.p6.now, .check i.p7.sample i.p7.now, .check i.p8.sample i.p8.now]

/-- Body of `loop`, up to the serial output. -/
def loop (s : State) (i : LoopInput) : State :=
  let s := checkButtonState s i.p1.sample i.p1.now
  let s := runningUpdate s i.nowRun
  let s := checkButtonState s i.p2.sample i.p2.now
  let tempA2 := i.tempA2
  let tempA3 := i.tempA3
  let s := checkButtonState s i.p3.sample i.p3.now
  let s := readCurrent s i.adc
  let voltage_diff := s.voltage_raw - QOV
  let s := checkButtonState s i.p4.sample i.p4.now
  let s := renderTempA2 s tempA2
  let s := checkButtonState s i.p5.sample i.p5.now
  let s := renderTempA3 s tempA3
  let s := checkButtonState s i.p6.sample i.p6.now
  let s := renderVoltage s voltage_diff
  let s := checkButtonState s i.p7.sample i.p7.now
  let s := renderCurrent s
  let s := checkButtonState s i.p8.sample i.p8.now
  let s := renderTimer s
  s

/-! ## Reading the display log -/

/-- The calls issued between two states of the same run. -/
def callsOf (before after : State) : List TftCall :=
  after.tft.drop before.tft.length

/-- Characters a print call puts on the screen.  Unsigned numbers are printed
in decimal; the rendering of a `float` is the driver's business and is the
parameter `fmt`. -/
def TftCall.text (fmt : F32 → Nat → String) : TftCall → String
  | .setCursor _ _ => ""
  | .setTextColor _ => ""
  | .printStr s => s
  | .printUInt n => Nat.repr n
  | .printFloat v digits => fmt v digits

/-- Text printed in colour `c` by a list of calls, when the text colour before
the first call is `cur`. -/
def textIn (fmt : F32 → Nat → String) (c : Color) : Color → List TftCall → String
  | _, [] => ""
  | _, .setTextColor c' :: cs => textIn fmt c c' cs
  | cur, call :: cs => (if cur = c then call.text fmt else "") ++ textIn fmt c cur cs

/-- The two characters of a number below 100 written with two decimal digits. -/
def twoDigits (n : Nat) : String :=
  String.mk [Char.ofNat (48 + n / 10), Char.ofNat (48 + n % 10)]

/-! ## Predicates used in the statements -/

/-- The sample `sample` is a rising edge in state `s`. -/
def IsRisingEdge (s : State) (sample : Int) : Prop :=
  sample = HIGH ∧ s.lastButtonState = LOW

instance (s : State) (sample : Int) : Decidable (IsRisingEdge s sample) := by
  unfold IsRisingEdge; infer_instance

/-- The stopwatch part of the state: press counter, running flag, start time
and elapsed time. -/
def stopwatch (s : State) : Int × Bool × Nat × Nat :=
  (s.buttonPressCount, s.running, s.startTime, s.elapsedTime)

/-- The stopwatch part of the state together with the edge detector. -/
def core (s : State) : (Int × Bool × Nat × Nat) × Int :=
  (stopwatch s, s.lastButtonState)

/-- The part of the stopwatch that only button presses change: press counter,
running flag and start time. -/
def control (s : State) : Int × Bool × Nat :=
  (s.buttonPressCount, s.running, s.startTime)

/-- Number of rising edges among the polls of a sequence of actions, the sample
before the first one being `last`. -/
def actionEdges (last : Int) : List Action → Nat
  | [] => 0
  | .check sample _ :: as =>
      (if sample = HIGH ∧ last = LOW then 1 else 0) + actionEdges sample as
  | .update _ :: as => actionEdges last as

/-- The two globals the signal conditioner writes. -/
def sensed (s : State) : F32 × F32 := (s.voltage_raw, s.current)

/-- A reachable Running state: the button was pressed once, at clock reading 100. -/
def startedAt100 : State := checkButtonState init HIGH 100

/-- A reachable Stopped state: pressed at 100, released, pressed again at 300,
released. -/
def stoppedAt300 : State :=
  pollMany init [⟨HIGH, 100⟩, ⟨LOW, 150⟩, ⟨HIGH, 300⟩, ⟨LOW, 350⟩]

/-- An iteration in which the button goes `HIGH` at the last poll, at clock
reading 5000. -/
def pressInput : LoopInput :=
  { p1 := ⟨LOW, 4000⟩, nowRun := 4001, p2 := ⟨LOW, 4002⟩, tempA2 := F32.ofInt 20, tempA3 := F32.ofInt 20,
    p3 := ⟨LOW, 4003⟩, adc := 512, p4 := ⟨LOW, 4004⟩, p5 := ⟨LOW, 4005⟩,
    p6 := ⟨LOW, 4006⟩, p7 := ⟨LOW, 4007⟩, p8 := ⟨HIGH, 5000⟩ }

/-- An iteration one hour after the press of `pressInput`, the button still
reading `HIGH`: the running update reads the clock at 3605000. -/
def hourInput : LoopInput :=
  { p1 := ⟨HIGH, 3604999⟩, nowRun := 3605000, p2 := ⟨HIGH, 3605001⟩, tempA2 := F32.ofInt 20,
    tempA3 := F32.ofInt 20, p3 := ⟨HIGH, 3605002⟩, adc := 512, p4 := ⟨HIGH, 3605003⟩,
    p5 := ⟨HIGH, 3605004⟩, p6 := ⟨HIGH, 3605005⟩, p7 := ⟨HIGH, 3605006⟩,
    p8 := ⟨HIGH, 3605007⟩ }

/-- The state after the stopwatch has run for one hour and the timer field has
been drawn for the elapsed time 3600000 ms. -/
def afterOneHour : State := loop (loop init pressInput) hourInput

/-- Issue a list of calls on the display, in order. -/
def emitAll (s : State) (cs : List TftCall) : State := { s with tft := s.tft ++ cs }

/-- The erase-then-draw pair of a field at position `(x, y)`: the old value in
the background colour, then the new value in the foreground colour. -/
def redraw (x y : Nat) (old new : TftCall) : List TftCall :=
  [.setCursor x y, .setTextColor .WHITE, old, .setCursor x y, .setTextColor .BLACK, new]

/-- The cache of displayed values and the log of display calls. -/
def shown (s : State) : F32 × F32 × F32 × F32 × Nat × List TftCall :=
  (s.prevTempA2, s.prevTempA3, s.prevVoltage, s.prevCurrent, s.prevElapsedTime, s.tft)

/-- An iteration during which the button is not pressed, both probes read
20 °C and the ADC returns 512. -/
def quietInput : LoopInput :=
  { p1 := ⟨LOW, 1000⟩, nowRun := 1001, p2 := ⟨LOW, 1002⟩, tempA2 := F32.ofInt 20, tempA3 := F32.ofInt 20,
    p3 := ⟨LOW, 1003⟩, adc := 512, p4 := ⟨LOW, 1004⟩, p5 := ⟨LOW, 1005⟩,
    p6 := ⟨LOW, 1006⟩, p7 := ⟨LOW, 1007⟩, p8 := ⟨LOW, 1008⟩ }

/-- Everything the render blocks read or write: cache, display log, and the
two sensed values. -/
def dview (s : State) : (F32 × F32 × F32 × F32 × Nat × List TftCall) × (F32 × F32) :=
  (shown s, sensed s)

/-- The calls of `displayTime` when the cached elapsed time is `prev` and the
argument is `elapsed`. -/
def timeCalls (prev elapsed : Nat) : List TftCall :=
  [.setCursor 44 130, .setTextColor .WHITE, .printUInt (prev / 60000), .printStr ":"] ++
  (if (prev / 1000) % 60 < 10 then [.printStr "0"] else []) ++
  [.printUInt ((prev / 1000) % 60), .printStr ":"] ++
  (if (prev % 1000) / 10 < 10 then [.printStr "0"] else []) ++
  [.printUInt ((prev % 1000) / 10),
   .setCursor 44 130, .setTextColor .BLACK, .printUInt ((elapsed / 60000) % 60),
   .printStr ":"] ++
  (if (elapsed / 1000) % 60 < 10 then [.printStr "0"] else []) ++
  [.printUInt ((elapsed / 1000) % 60), .printStr ":"] ++
  (if (elapsed % 1000) / 10 < 10 then [.printStr "0"] else []) ++
  [.printUInt ((elapsed % 1000) / 10)]

/-- An iteration during which the button is not pressed, both probes read
20 °C and the ADC returns 700. -/
def adc700Input : LoopInput := { quietInput with adc := 700 }

/-- Invariant of the stopwatch controller. -/
def Inv (s : State) : Prop :=
  (s.buttonPressCount = 0 ∨ s.buttonPressCount = 1 ∨ s.buttonPressCount = 2) ∧
  (s.running = true ↔ s.buttonPressCount = 1) ∧
  (s.buttonPressCount = 0 → s.elapsedTime = 0 ∧ s.startTime = 0)

/-- The Stopped phase: two presses counted, timer not running. -/
def Stopped (s : State) : Prop := s.buttonPressCount = 2 ∧ s.running = false

/-! ## Lemmas on `checkButtonState` -/

theorem check_lastButtonState (s : State) (sample : Int) (now : Nat) :
    (checkButtonState s sample now).lastButtonState = sample := by
  unfold checkButtonState
  simp only
  split_ifs <;> rfl

theorem check_no_edge (s : State) (sample : Int) (now : Nat)
    (h : ¬ IsRisingEdge s sample) :
    checkButtonState s sample now =
      { s with buttonState := sample, lastButtonState := sample } := by
  unfold IsRisingEdge at h
  unfold checkButtonState
  simp only [h, if_false]

theorem init_inv : Inv init := by
  unfold Inv init
  simp

theorem check_inv (s : State) (sample : Int) (now : Nat) (h : Inv s) :
    Inv (checkButtonState s sample now) ∧
    (checkButtonState s sample now).buttonPressCount =
      (s.buttonPressCount + (if IsRisingEdge s sample then 1 else 0)) % 3 := by
  by_cases he : IsRisingEdge s sample
  · obtain ⟨hc, hr, hz⟩ := h
    have he2 := he
    unfold IsRisingEdge at he2
    rw [if_pos he]
    unfold Inv checkButtonState
    rcases hc with hc | hc | hc <;>
      simp [he, he2, hc, wrapInt]
  · rw [check_no_edge s sample now he]
    obtain ⟨hc, hr, hz⟩ := h
    refine ⟨⟨hc, hr, hz⟩, ?_⟩
    simp only [he, if_false, add_zero]
    rcases hc with hc | hc | hc <;> simp [hc]

theorem check_no_edge_stopwatch (s : State) (sample : Int) (now : Nat)
    (h : ¬ IsRisingEdge s sample) :
    stopwatch (checkButtonState s sample now) = stopwatch s := by
  rw [check_no_edge s sample now h]
  rfl

theorem pollMany_append (s : State) (ps qs : List Poll) :
    pollMany s (ps ++ qs) = pollMany (pollMany s ps) qs := by
  induction ps generalizing s with
  | nil => rfl
  | cons p ps ih => exact ih _

theorem pollMany_cons (s : State) (p : Poll) (ps : List Poll) :
    pollMany s (p :: ps) = pollMany (checkButtonState s p.sample p.now) ps := rfl

theorem pollMany_inv (s : State) (ps : List Poll) (h : Inv s) :
    Inv (pollMany s ps) ∧
    (pollMany s ps).buttonPressCount =
      (s.buttonPressCount + (risingEdges s.lastButtonState ps : Int)) % 3 := by
  induction ps generalizing s with
  | nil =>
    refine ⟨h, ?_⟩
    obtain ⟨hc, -, -⟩ := h
    simp only [pollMany, risingEdges]
    rcases hc with hc | hc | hc <;> simp [hc]
  | cons p ps ih =>
    obtain ⟨hi, hcnt⟩ := check_inv s p.sample p.now h
    obtain ⟨hi2, hcnt2⟩ := ih (checkButtonState s p.sample p.now) hi
    refine ⟨hi2, ?_⟩
    simp only [pollMany, risingEdges]
    rw [hcnt2, hcnt, check_lastButtonState]
    unfold IsRisingEdge
    split_ifs <;> push_cast <;> omega

theorem pollMany_no_edges (s : State) (ps : List Poll)
    (h : risingEdges s.lastButtonState ps = 0) :
    stopwatch (pollMany s ps) = stopwatch s := by
  induction ps generalizing s with
  | nil => rfl
  | cons p ps ih =>
    simp only [risingEdges] at h
    have h1 : ¬ IsRisingEdge s p.sample := by
      unfold IsRisingEdge
      intro hc
      rw [if_pos hc] at h
      omega
    have h2 : risingEdges p.sample ps = 0 := by omega
    simp only [pollMany]
    rw [ih _ (by rw [check_lastButtonState]; exact h2)]
    exact check_no_edge_stopwatch s p.sample p.now h1

/-! ## The press counter cycles modulo three -/

/-- C1: from the initial state, after any sequence of `checkButtonState` calls
containing `k` rising edges the press counter is `k mod 3`; the timer is
running exactly when `k mod 3 = 1`; when `k mod 3 = 2` it is stopped and, as
long as no further edge arrives, the elapsed time is the value computed at that
edge; when `k mod 3 = 0` the state is the reset state; and three more edges
give the same counter and running flag, so the 4th press acts as the 1st. -/
theorem press_counter_cycles (ps : List Poll) :
    (pollMany init ps).buttonPressCount = ((risingEdges LOW ps % 3 : Nat) : Int) ∧
    ((pollMany init ps).running = true ↔ risingEdges LOW ps % 3 = 1) ∧
    (risingEdges LOW ps % 3 = 2 → (pollMany init ps).running = false) ∧
    (∀ pre p post, ps = pre ++ p :: post → IsRisingEdge (pollMany init pre) p.sample →
      risingEdges LOW pre % 3 = 1 → risingEdges p.sample post = 0 →
      (pollMany init ps).elapsedTime = sub32 p.now (pollMany init pre).startTime) ∧
    (risingEdges LOW ps % 3 = 0 →
      (pollMany init ps).running = false ∧ (pollMany init ps).elapsedTime = 0 ∧
      (pollMany init ps).startTime = 0) ∧
    (∀ qs, risingEdges LOW qs = risingEdges LOW ps + 3 →
      (pollMany init qs).buttonPressCount = (pollMany init ps).buttonPressCount ∧
      (pollMany init qs).running = (pollMany init ps).running) := by
  have key : ∀ l : List Poll, Inv (pollMany init l) ∧
      (pollMany init l).buttonPressCount = ((risingEdges LOW l % 3 : Nat) : Int) := by
    intro l
    obtain ⟨hi, hc⟩ := pollMany_inv init l init_inv
    refine ⟨hi, ?_⟩
    rw [hc]
    simp only [init]
    push_cast
    omega
  obtain ⟨⟨hc, hr, hz⟩, hk⟩ := key ps
  refine ⟨hk, ?_, ?_, ?_, ?_, ?_⟩
  · rw [hr, hk]
    omega
  · intro h2
    have : ¬ ((pollMany init ps).running = true) := by
      rw [hr, hk]
      omega
    simpa using this
  · intro pre p post hps hedge hpre hpost
    subst hps
    rw [pollMany_append, pollMany_cons]
    have hno := pollMany_no_edges (checkButtonState (pollMany init pre) p.sample p.now) post
      (by rw [check_lastButtonState]; exact hpost)
    have hel : (pollMany (checkButtonState (pollMany init pre) p.sample p.now) post).elapsedTime
        = (checkButtonState (pollMany init pre) p.sample p.now).elapsedTime := by
      have := congrArg (fun q => q.2.2.2) hno
      exact this
    rw [hel]
    obtain ⟨-, hkpre⟩ := key pre
    rw [hpre] at hkpre
    have he2 := hedge
    unfold IsRisingEdge at he2
    unfold checkButtonState
    simp [he2, hkpre, wrapInt]
  · intro h0
    have hc0 : (pollMany init ps).buttonPressCount = 0 := by
      rw [hk, h0]
      rfl
    have hnr : ¬ ((pollMany init ps).running = true) := by
      rw [hr, hc0]
      decide
    exact ⟨by simpa using hnr, hz hc0⟩
  · intro qs hq
    obtain ⟨⟨-, hrq, -⟩, hkq⟩ := key qs
    have hcq : (pollMany init qs).buttonPressCount = (pollMany init ps).buttonPressCount := by
      rw [hkq, hk, hq]
      congr 1
      omega
    refine ⟨hcq, ?_⟩
    have : ((pollMany init qs).running = true) ↔ ((pollMany init ps).running = true) := by
      rw [hrq, hr, hcq]
    cases hA : (pollMany init qs).running <;> cases hB : (pollMany init ps).running <;>
      simp_all

/-! ## The loop acts on the stopwatch through its polls and its update only -/

theorem core_check_congr (s t : State) (sample : Int) (now : Nat) (h : core s = core t) :
    core (checkButtonState s sample now) = core (checkButtonState t sample now) := by
  simp only [core, stopwatch, Prod.mk.injEq] at h
  obtain ⟨⟨h1, h2, h3, h4⟩, h5⟩ := h
  unfold checkButtonState
  simp only [h1, h2, h3, h4, h5]
  split_ifs <;> simp [core, stopwatch, h1, h2, h3, h4]

theorem core_update_congr (s t : State) (now : Nat) (h : core s = core t) :
    core (runningUpdate s now) = core (runningUpdate t now) := by
  simp only [core, stopwatch, Prod.mk.injEq] at h
  obtain ⟨⟨h1, h2, h3, h4⟩, h5⟩ := h
  unfold runningUpdate
  simp only [h2, h3]
  split_ifs <;> simp [core, stopwatch, h1, h2, h3, h4, h5]

theorem core_emit (s : State) (c : TftCall) : core (emit s c) = core s := rfl

theorem core_displayTime (s : State) (elapsed : Nat) :
    core (displayTime s elapsed) = core s := by
  simp only [displayTime]
  split_ifs <;> simp only [core_emit]

theorem core_set_prevTempA2 (s : State) (v : F32) :
    core { s with prevTempA2 := v } = core s := rfl

theorem core_set_prevTempA3 (s : State) (v : F32) :
    core { s with prevTempA3 := v } = core s := rfl

theorem core_set_prevVoltage (s : State) (v : F32) :
    core { s with prevVoltage := v } = core s := rfl

theorem core_set_prevCurrent (s : State) (v : F32) :
    core { s with prevCurrent := v } = core s := rfl

theorem core_set_prevElapsedTime (s : State) (v : Nat) :
    core { s with prevElapsedTime := v } = core s := rfl

theorem core_renderTempA2 (s : State) (v : F32) : core (renderTempA2 s v) = core s := by
  simp only [renderTempA2]
  split_ifs
  · rw [core_set_prevTempA2]
    simp only [core_emit]
  · rfl

theorem core_renderTempA3 (s : State) (v : F32) : core (renderTempA3 s v) = core s := by
  simp only [renderTempA3]
  split_ifs
  · rw [core_set_prevTempA3]
    simp only [core_emit]
  · rfl

theorem core_renderVoltage (s : State) (v : F32) : core (renderVoltage s v) = core s := by
  simp only [renderVoltage]
  split_ifs
  · rw [core_set_prevVoltage]
    simp only [core_emit]
  · rfl

theorem core_renderCurrent (s : State) : core (renderCurrent s) = core s := by
  simp only [renderCurrent]
  split_ifs
  · rw [core_set_prevCurrent]
    simp only [core_emit]
  · rfl

theorem core_renderTimer (s : State) : core (renderTimer s) = core s := by
  simp only [renderTimer]
  split_ifs
  · rw [core_set_prevElapsedTime]
    exact core_displayTime s s.elapsedTime
  · rfl

theorem core_readCurrent (s : State) (adc : Nat) : core (readCurrent s adc) = core s := rfl

theorem core_loop (s : State) (i : LoopInput) :
    core (loop s i) = core (exec s i.actions) := by
  simp only [loop, LoopInput.actions, exec, step]
  rw [core_renderTimer]
  apply core_check_congr
  rw [core_renderCurrent]
  apply core_check_congr
  rw [core_renderVoltage]
  apply core_check_congr
  rw [core_renderTempA3]
  apply core_check_congr
  rw [core_renderTempA2]
  apply core_check_congr
  rw [core_readCurrent]

/-! ## Sequences without a rising edge -/

theorem update_control (s : State) (now : Nat) :
    control (runningUpdate s now) = control s ∧
    (runningUpdate s now).lastButtonState = s.lastButtonState := by
  unfold runningUpdate
  split_ifs <;> exact ⟨rfl, rfl⟩

theorem update_not_running (s : State) (now : Nat) (h : s.running = false) :
    runningUpdate s now = s := by
  unfold runningUpdate
  simp [h]

theorem control_of_stopwatch {s t : State} (h : stopwatch s = stopwatch t) :
    control s = control t := by
  simp only [stopwatch, Prod.mk.injEq] at h
  obtain ⟨h1, h2, h3, -⟩ := h
  simp only [control, h1, h2, h3]

theorem exec_no_edges_control (s : State) (as : List Action)
    (h : actionEdges s.lastButtonState as = 0) :
    control (exec s as) = control s := by
  induction as generalizing s with
  | nil => rfl
  | cons a as ih =>
    cases a with
    | check sample now =>
      simp only [actionEdges] at h
      have h1 : ¬ IsRisingEdge s sample := by
        unfold IsRisingEdge
        intro hc
        rw [if_pos hc] at h
        omega
      have h2 : actionEdges sample as = 0 := by omega
      simp only [exec, step]
      rw [ih _ (by rw [check_lastButtonState]; exact h2)]
      exact control_of_stopwatch (check_no_edge_stopwatch s sample now h1)
    | update now =>
      simp only [actionEdges] at h
      simp only [exec, step]
      rw [ih _ (by rw [(update_control s now).2]; exact h)]
      exact (update_control s now).1

theorem exec_no_edges_not_running (s : State) (as : List Action)
    (hr : s.running = false) (h : actionEdges s.lastButtonState as = 0) :
    stopwatch (exec s as) = stopwatch s := by
  induction as generalizing s with
  | nil => rfl
  | cons a as ih =>
    cases a with
    | check sample now =>
      simp only [actionEdges] at h
      have h1 : ¬ IsRisingEdge s sample := by
        unfold IsRisingEdge
        intro hc
        rw [if_pos hc] at h
        omega
      have h2 : actionEdges sample as = 0 := by omega
      have h3 := check_no_edge_stopwatch s sample now h1
      have hr2 : (checkButtonState s sample now).running = false := by
        have := congrArg (fun q => q.2.1) h3
        exact this.trans hr
      simp only [exec, step]
      rw [ih _ hr2 (by rw [check_lastButtonState]; exact h2)]
      exact h3
    | update now =>
      simp only [actionEdges] at h
      simp only [exec, step]
      rw [update_not_running s now hr]
      exact ih s hr h

theorem held_no_edges (held : List Poll) (h : ∀ q ∈ held, q.sample = HIGH) :
    risingEdges HIGH held = 0 := by
  induction held with
  | nil => rfl
  | cons q qs ih =>
    have hq : q.sample = HIGH := h q (List.mem_cons_self _ _)
    have hqs : ∀ r ∈ qs, r.sample = HIGH := fun r hr => h r (List.mem_cons_of_mem _ hr)
    simp only [risingEdges, hq]
    rw [ih hqs]
    simp [HIGH, LOW]

theorem check_edge_count_ne (s : State) (sample : Int) (now : Nat)
    (h : IsRisingEdge s sample) :
    (checkButtonState s sample now).buttonPressCount ≠ s.buttonPressCount := by
  unfold IsRisingEdge at h
  unfold checkButtonState
  simp only [h, and_self, if_true]
  unfold wrapInt
  split_ifs with h1 h2 h3
  · simp only
    intro hc
    rw [← hc] at h1
    omega
  · simp only
    intro hc
    rw [← hc] at h2
    omega
  · simp only
    intro hc
    rw [← hc] at h3
    omega
  · simp only
    omega

/-! ## Transitions fire on rising edges only -/

/-- C2: `checkButtonState` leaves press counter, running flag, start time and
elapsed time unchanged unless the sample is a rising edge, and a rising edge
always changes the press counter; so in a run of `HIGH` samples that starts
with a rising edge there is exactly one edge, the state after the whole run is
the one reached at the first sample, and a `loop` iteration during which the
button is `HIGH` throughout advances the press counter, running flag and start
time once if the button was `LOW` before and not at all if it was held. -/
theorem transitions_only_on_rising_edge (s : State) :
    (∀ sample now, ¬ IsRisingEdge s sample →
      stopwatch (checkButtonState s sample now) = stopwatch s) ∧
    (∀ sample now, IsRisingEdge s sample →
      (checkButtonState s sample now).buttonPressCount ≠ s.buttonPressCount) ∧
    (∀ (p : Poll) (held : List Poll), IsRisingEdge s p.sample →
      (∀ q ∈ held, q.sample = HIGH) →
      risingEdges s.lastButtonState (p :: held) = 1 ∧
      stopwatch (pollMany s (p :: held)) = stopwatch (checkButtonState s p.sample p.now)) ∧
    (∀ i : LoopInput, (∀ q ∈ i.polls, q.sample = HIGH) →
      (s.lastButtonState = LOW →
        control (loop s i) = control (checkButtonState s HIGH i.p1.now)) ∧
      (s.lastButtonState = HIGH → control (loop s i) = control s)) := by
  refine ⟨fun sample now h => check_no_edge_stopwatch s sample now h,
    fun sample now h => check_edge_count_ne s sample now h, ?_, ?_⟩
  · intro p held hedge hheld
    have hp : p.sample = HIGH := hedge.1
    have h0 : risingEdges p.sample held = 0 := by
      rw [hp]
      exact held_no_edges held hheld
    refine ⟨?_, ?_⟩
    · have he2 := hedge
      unfold IsRisingEdge at he2
      rw [hp] at h0
      simp only [risingEdges, he2, and_self, if_true, h0]
    · rw [pollMany_cons]
      exact pollMany_no_edges _ held (by rw [check_lastButtonState]; exact h0)
  · intro i hall
    simp only [LoopInput.polls, List.mem_cons, List.mem_singleton, forall_eq_or_imp, forall_eq,
      List.not_mem_nil, false_implies, implies_true, and_true] at hall
    obtain ⟨h1, h2, h3, h4, h5, h6, h7, h8⟩ := hall
    have hcore := core_loop s i
    have hctl : control (loop s i) = control (exec s i.actions) := by
      simp only [core, stopwatch, Prod.mk.injEq] at hcore
      obtain ⟨⟨c1, c2, c3, -⟩, -⟩ := hcore
      simp only [control, c1, c2, c3]
    rw [hctl]
    refine ⟨?_, ?_⟩
    · intro hlow
      simp only [LoopInput.actions, exec, step]
      have := exec_no_edges_control (checkButtonState s HIGH i.p1.now)
        [.update i.nowRun, .check i.p2.sample i.p2.now,
         .check i.p3.sample i.p3.now, .check i.p4.sample i.p4.now, .check i.p5.sample i.p5.now,
         .check i.p6.sample i.p6.now, .check i.p7.sample i.p7.now, .check i.p8.sample i.p8.now]
        (by rw [check_lastButtonState]; simp [actionEdges, h2, h3, h4, h5, h6, h7, h8, HIGH, LOW])
      simp only [exec, step] at this
      rw [h1]
      exact this
    · intro hhigh
      exact exec_no_edges_control s i.actions
        (by rw [hhigh]; simp [LoopInput.actions, actionEdges, h1, h2, h3, h4, h5, h6, h7, h8, HIGH, LOW])

/-! ## Signal conditioner -/

theorem sensed_check (s : State) (sample : Int) (now : Nat) :
    sensed (checkButtonState s sample now) = sensed s := by
  unfold checkButtonState
  simp only
  split_ifs <;> rfl

theorem sensed_emit (s : State) (c : TftCall) : sensed (emit s c) = sensed s := rfl

theorem sensed_displayTime (s : State) (elapsed : Nat) :
    sensed (displayTime s elapsed) = sensed s := by
  simp only [displayTime]
  split_ifs <;> simp only [sensed_emit]

theorem sensed_set_prevTempA2 (s : State) (v : F32) :
    sensed { s with prevTempA2 := v } = sensed s := rfl

theorem sensed_set_prevTempA3 (s : State) (v : F32) :
    sensed { s with prevTempA3 := v } = sensed s := rfl

theorem sensed_set_prevVoltage (s : State) (v : F32) :
    sensed { s with prevVoltage := v } = sensed s := rfl

theorem sensed_set_prevCurrent (s : State) (v : F32) :
    sensed { s with prevCurrent := v } = sensed s := rfl

theorem sensed_set_prevElapsedTime (s : State) (v : Nat) :
    sensed { s with prevElapsedTime := v } = sensed s := rfl

theorem sensed_renderTempA2 (s : State) (v : F32) : sensed (renderTempA2 s v) = sensed s := by
  simp only [renderTempA2]
  split_ifs
  · rw [sensed_set_prevTempA2]
    simp only [sensed_emit]
  · rfl

theorem sensed_renderTempA3 (s : State) (v : F32) : sensed (renderTempA3 s v) = sensed s := by
  simp only [renderTempA3]
  split_ifs
  · rw [sensed_set_prevTempA3]
    simp only [sensed_emit]
  · rfl

theorem sensed_renderVoltage (s : State) (v : F32) : sensed (renderVoltage s v) = sensed s := by
  simp only [renderVoltage]
  split_ifs
  · rw [sensed_set_prevVoltage]
    simp only [sensed_emit]
  · rfl

theorem sensed_renderCurrent (s : State) : sensed (renderCurrent s) = sensed s := by
  simp only [renderCurrent]
  split_ifs
  · rw [sensed_set_prevCurrent]
    simp only [sensed_emit]
  · rfl

theorem sensed_renderTimer (s : State) : sensed (renderTimer s) = sensed s := by
  simp only [renderTimer]
  split_ifs
  · rw [sensed_set_prevElapsedTime]
    exact sensed_displayTime s s.elapsedTime
  · rfl

theorem sensed_loop (s : State) (i : LoopInput) :
    sensed (loop s i) = (voltsOf i.adc, currentOf (voltsOf i.adc)) := by
  simp only [loop]
  rw [sensed_renderTimer, sensed_check, sensed_renderCurrent, sensed_check, sensed_renderVoltage,
    sensed_check, sensed_renderTempA3, sensed_check, sensed_renderTempA2, sensed_check]
  simp only [sensed, readCurrent]

theorem toRat_dyadic (m : Int) (e : Nat) (h : e ≤ 149) :
    (F32.dyadic m e).toRat = (m : ℚ) / 2 ^ e := by
  unfold F32.dyadic F32.toRat
  have h149 : (2 : ℚ) ^ 149 = 2 ^ (149 - e) * 2 ^ e := by
    rw [← pow_add]
    congr 1
    omega
  rw [h149]
  push_cast
  field_simp
  ring

theorem rounding_examples :
    bitLength 0 = 0 ∧ bitLength 1 = 1 ∧ bitLength (2 ^ 24 - 1) = 24 ∧ bitLength (2 ^ 24) = 25 ∧
    F32.lit 1 10 = F32.dyadic 13421773 27 ∧
    F32.ofInt 16777217 = F32.dyadic 16777216 0 ∧
    F32.ofInt 16777219 = F32.dyadic 16777220 0 ∧
    F32.ofInt (-1000) = F32.dyadic (-1000) 0 ∧
    F32.lit 1 (10 ^ 45) = F32.dyadic 1 149 ∧
    F32.dyadic 1 0 / F32.dyadic 3 0 = F32.dyadic 11184811 25 := by decide

theorem QOV_eq : QOV = F32.dyadic 5 1 := by decide

theorem voltsOf_516 : voltsOf 516 = F32.dyadic 5289005 21 := by decide

theorem SENSITIVITY_eq : SENSITIVITY = F32.dyadic 5368709 27 := by decide

theorem DEADZONE_THRESHOLD_eq : DEADZONE_THRESHOLD = F32.dyadic 5368709 28 := by decide

theorem voltsOf_700 : voltsOf 700 = F32.dyadic 7175007 21 := by decide

theorem currentOf_700 : currentOf (F32.dyadic 7175007 21) = F32.dyadic 6037897 18 := by decide

theorem lit_253 : F32.lit 253 100 = F32.dyadic 10611589 22 := by decide

theorem currentOf_253 : currentOf (F32.dyadic 10611589 22) = F32.dyadic 3145725 22 := by decide

/-- C3, as stated, fails: at ADC count 700 the stored voltage is
7175007/2^21 (not 5/1023 * 700), it lies outside the dead zone, and the current
the code computes, 6037897/2^18, is not `(v - 2.5) / 0.04` in exact rational
arithmetic; and the binary32 value nearest 2.53 is not 2.53 and gives
3145725/2^22, not 0.75. -/
theorem conditioner_rounds_at_adc_700 :
    (loop init adc700Input).voltage_raw = F32.dyadic 7175007 21 ∧
    (loop init adc700Input).current = F32.dyadic 6037897 18 ∧
    (F32.dyadic 7175007 21).toRat ≠ 5 / 1023 * 700 ∧
    ¬ (|(F32.dyadic 7175007 21).toRat - 2.5| < 0.02) ∧
    (F32.dyadic 6037897 18).toRat ≠ ((F32.dyadic 7175007 21).toRat - 2.5) / 0.04 ∧
    F32.lit 253 100 = F32.dyadic 10611589 22 ∧
    (F32.dyadic 10611589 22).toRat ≠ 2.53 ∧
    currentOf (F32.lit 253 100) = F32.dyadic 3145725 22 ∧
    (F32.dyadic 3145725 22).toRat ≠ 0.75 := by
  have h := sensed_loop init adc700Input
  simp only [sensed, Prod.mk.injEq] at h
  obtain ⟨h1, h2⟩ := h
  have hv : voltsOf adc700Input.adc = F32.dyadic 7175007 21 := voltsOf_700
  rw [hv] at h1 h2
  refine ⟨h1, h2.trans currentOf_700, ?_, ?_, ?_, lit_253, ?_, ?_, ?_⟩
  · rw [toRat_dyadic _ _ (by decide)]
    norm_num
  · rw [toRat_dyadic _ _ (by decide)]
    norm_num [abs_lt]
  · rw [toRat_dyadic _ _ (by decide), toRat_dyadic _ _ (by decide)]
    norm_num
  · rw [toRat_dyadic _ _ (by decide)]
    norm_num
  · rw [lit_253]
    exact currentOf_253
  · rw [toRat_dyadic _ _ (by decide)]
    norm_num

theorem neg_units (a : F32) : (-a).units = -a.units := rfl

/-- C3, amended: the signal conditioner computes in binary32 arithmetic, every
operation rounded to nearest, ties to even.  From the voltage sample `v` it
forms `diff = v - 2.5` (rounded); if `|diff| < fl(0.02) = 5368709/2^28` the
current is exactly 0, otherwise it is `diff / fl(0.04)` (rounded), with
`fl(0.04) = 5368709/2^27`.  The comparison is strict: a `diff` equal to
`+fl(0.02)` or `-fl(0.02)` takes the linear branch and gives `+0.5` or `-0.5`.
The voltage 2.5 gives 0, the binary32 values nearest 2.51, 2.52 and 2.48 give
0, the one nearest 2.53 gives 3145725/2^22 (0.7499993) and the one nearest 2.55
gives 5242875/2^22 (1.2499988).  Every `loop` iteration stores
`fl(fl(5/1023) * adc)` in `voltage_raw` (5289005/2^21 at count 516) and this
function of it in `current`. -/
theorem conditioner_binary32 (v : F32) :
    currentOf v =
      (if |(v - QOV).units| < DEADZONE_THRESHOLD.units then F32.dyadic 0 0
        else (v - QOV) / SENSITIVITY) ∧
    QOV.toRat = 5 / 2 ∧ DEADZONE_THRESHOLD.toRat = 5368709 / 2 ^ 28 ∧
    SENSITIVITY.toRat = 5368709 / 2 ^ 27 ∧
    currentOfDiff DEADZONE_THRESHOLD = DEADZONE_THRESHOLD / SENSITIVITY ∧
    (currentOfDiff DEADZONE_THRESHOLD).toRat = 1 / 2 ∧
    currentOfDiff (-DEADZONE_THRESHOLD) = (-DEADZONE_THRESHOLD) / SENSITIVITY ∧
    (currentOfDiff (-DEADZONE_THRESHOLD)).toRat = -1 / 2 ∧
    currentOf (F32.lit 25 10) = F32.dyadic 0 0 ∧
    currentOf (F32.lit 251 100) = F32.dyadic 0 0 ∧
    currentOf (F32.lit 252 100) = F32.dyadic 0 0 ∧
    currentOf (F32.lit 248 100) = F32.dyadic 0 0 ∧
    currentOf (F32.lit 253 100) = F32.dyadic 3145725 22 ∧
    currentOf (F32.lit 255 100) = F32.dyadic 5242875 22 ∧
    (∀ (s : State) (i : LoopInput),
      (loop s i).voltage_raw = (F32.lit 5 1 / F32.lit 1023 1) * F32.ofInt (i.adc : Int) ∧
      (loop s i).current = currentOf (loop s i).voltage_raw) ∧
    (F32.lit 5 1 / F32.lit 1023 1) * F32.ofInt 516 = F32.dyadic 5289005 21 := by
  have hpos : ((5368709 : ℚ) / 2 ^ 28) / (5368709 / 2 ^ 27) = 1 / 2 := by norm_num
  have hhalf : DEADZONE_THRESHOLD / SENSITIVITY = F32.dyadic 1 1 := by decide
  have hnhalf : (-DEADZONE_THRESHOLD) / SENSITIVITY = F32.dyadic (-1) 1 := by decide
  have hb1 : currentOfDiff DEADZONE_THRESHOLD = DEADZONE_THRESHOLD / SENSITIVITY := by decide
  have hb2 : currentOfDiff (-DEADZONE_THRESHOLD) = (-DEADZONE_THRESHOLD) / SENSITIVITY := by
    decide
  refine ⟨?_, ?_, ?_, ?_, hb1, ?_, hb2, ?_, by decide, by decide, by decide, by decide,
    by decide, by decide, ?_, voltsOf_516⟩
  · have habs : ∀ d : F32, (arduinoAbs d).units = |d.units| := by
      intro d
      unfold arduinoAbs
      have h0 : (F32.ofInt 0).units = 0 := by decide
      by_cases hd : F32.ofInt 0 < d
      · have hd2 : (F32.ofInt 0).units < d.units := hd
        rw [if_pos hd, abs_of_pos (by omega)]
      · have hd2 : ¬ (F32.ofInt 0).units < d.units := hd
        rw [if_neg hd, neg_units, abs_of_nonpos (by omega)]
    have hz : F32.lit 0 1 = F32.dyadic 0 0 := by decide
    unfold currentOf currentOfDiff
    simp only
    by_cases hc : arduinoAbs (v - QOV) < DEADZONE_THRESHOLD
    · have hc2 : (arduinoAbs (v - QOV)).units < DEADZONE_THRESHOLD.units := hc
      rw [if_pos hc, if_pos (by rw [← habs]; exact hc2), hz]
    · have hc2 : ¬ (arduinoAbs (v - QOV)).units < DEADZONE_THRESHOLD.units := hc
      rw [if_neg hc, if_neg (by rw [← habs]; exact hc2)]
  · rw [QOV_eq, toRat_dyadic _ _ (by decide)]
    norm_num
  · rw [DEADZONE_THRESHOLD_eq, toRat_dyadic _ _ (by decide)]
    norm_num
  · rw [SENSITIVITY_eq, toRat_dyadic _ _ (by decide)]
    norm_num
  · rw [hb1, hhalf, toRat_dyadic _ _ (by decide)]
    norm_num
  · rw [hb2, hnhalf, toRat_dyadic _ _ (by decide)]
    norm_num
  · intro s i
    have h := sensed_loop s i
    simp only [sensed, Prod.mk.injEq] at h
    obtain ⟨h1, h2⟩ := h
    exact ⟨h1, by rw [h2, h1]⟩

/-! ## Elapsed time while running -/

theorem update_running (s : State) (now : Nat) (h : s.running = true) :
    (runningUpdate s now).elapsedTime = sub32 now s.startTime := by
  unfold runningUpdate
  simp [h]

/-- C5, as stated, fails: the stopwatch is started at clock reading 100 and
the 32-bit clock wraps around afterwards; the readings 50 and 200 are taken in
that Running phase, 50 ≤ 200, and the elapsed time computed at 200 is smaller
than the one computed at 50. -/
theorem elapsed_drops_after_clock_wrap :
    startedAt100 = exec init [.check HIGH 100] ∧
    startedAt100.running = true ∧ startedAt100.startTime = 100 ∧
    (50 : Nat) ≤ 200 ∧ (200 : Nat) < U32 ∧
    (runningUpdate startedAt100 50).elapsedTime = 4294967246 ∧
    (runningUpdate startedAt100 200).elapsedTime = 100 ∧
    (runningUpdate startedAt100 200).elapsedTime < (runningUpdate startedAt100 50).elapsedTime := by
  refine ⟨rfl, by decide, by decide, by decide, by decide, by decide, by decide, by decide⟩

/-- C5, amended: while running, the update sets `elapsedTime` to
`(now - startTime) mod 2^32`, and for clock readings `t1 ≤ t2` the elapsed time
computed at `t2` is not less than the one computed at `t1` exactly when
`startTime` does not lie in `(t1, t2]`; in particular whenever
`startTime ≤ t1`, that is, as long as the clock has not wrapped around since
the start, and then the elapsed time is the plain difference. -/
theorem elapsed_monotone_unless_wrapped (s : State) (t1 t2 : Nat)
    (hr : s.running = true) (hs : s.startTime < U32) (h12 : t1 ≤ t2) (h2 : t2 < U32) :
    (runningUpdate s t1).elapsedTime = (t1 + U32 - s.startTime) % U32 ∧
    (runningUpdate s t2).elapsedTime = (t2 + U32 - s.startTime) % U32 ∧
    ((runningUpdate s t1).elapsedTime ≤ (runningUpdate s t2).elapsedTime ↔
      ¬ (t1 < s.startTime ∧ s.startTime ≤ t2)) ∧
    (s.startTime ≤ t1 →
      (runningUpdate s t1).elapsedTime = t1 - s.startTime ∧
      (runningUpdate s t2).elapsedTime = t2 - s.startTime ∧
      (runningUpdate s t1).elapsedTime ≤ (runningUpdate s t2).elapsedTime) := by
  rw [update_running s t1 hr, update_running s t2 hr]
  unfold sub32
  unfold U32 at *
  have e1 : t1 % 4294967296 = t1 := Nat.mod_eq_of_lt (by omega)
  have e2 : t2 % 4294967296 = t2 := Nat.mod_eq_of_lt h2
  have e3 : s.startTime % 4294967296 = s.startTime := Nat.mod_eq_of_lt hs
  rw [e1, e2, e3]
  refine ⟨rfl, rfl, ?_, ?_⟩
  · omega
  · intro h
    omega

theorem elapsed_monotone_unless_wrapped_witness :
    startedAt100.running = true ∧ startedAt100.startTime < U32 ∧ (150 : Nat) ≤ 200 ∧
    (200 : Nat) < U32 ∧
    (runningUpdate startedAt100 150).elapsedTime = (150 + U32 - startedAt100.startTime) % U32 ∧
    (runningUpdate startedAt100 200).elapsedTime = (200 + U32 - startedAt100.startTime) % U32 ∧
    ((runningUpdate startedAt100 150).elapsedTime ≤ (runningUpdate startedAt100 200).elapsedTime ↔
      ¬ (150 < startedAt100.startTime ∧ startedAt100.startTime ≤ 200)) ∧
    (startedAt100.startTime ≤ 150 →
      (runningUpdate startedAt100 150).elapsedTime = 150 - startedAt100.startTime ∧
      (runningUpdate startedAt100 200).elapsedTime = 200 - startedAt100.startTime ∧
      (runningUpdate startedAt100 150).elapsedTime ≤
        (runningUpdate startedAt100 200).elapsedTime) :=
  ⟨by decide, by decide, by decide, by decide,
    elapsed_monotone_unless_wrapped startedAt100 150 200 (by decide) (by decide) (by decide)
      (by decide)⟩

/-! ## The Stopped phase -/

theorem actionEdges_loop (last : Int) (i : LoopInput) :
    actionEdges last i.actions = risingEdges last i.polls := by
  simp only [LoopInput.actions, LoopInput.polls, actionEdges, risingEdges]

theorem stopwatch_loop (s : State) (i : LoopInput) :
    stopwatch (loop s i) = stopwatch (exec s i.actions) :=
  congrArg Prod.fst (core_loop s i)

theorem stopped_of_stopwatch {s t : State} (h : stopwatch t = stopwatch s) (hs : Stopped s) :
    t.elapsedTime = s.elapsedTime ∧ Stopped t := by
  simp only [stopwatch, Prod.mk.injEq] at h
  obtain ⟨h1, h2, -, h4⟩ := h
  exact ⟨h4, by rw [Stopped, h1, h2]; exact hs⟩

/-- C6: the second press sets `elapsedTime` to `now - startTime` (32-bit) and
enters the Stopped phase; in the Stopped phase the running update does
nothing, a poll that is not a rising edge, any sequence of polls and running
updates without a rising edge, and any `loop` iteration without a rising edge
leave `elapsedTime` unchanged and stay Stopped, whatever the clock readings
are; the one action that changes `elapsedTime` is the rising edge, which is the
reset. -/
theorem stopped_elapsed_frozen :
    (∀ (r : State) (sample : Int) (now : Nat), r.buttonPressCount = 1 →
      IsRisingEdge r sample →
      (checkButtonState r sample now).elapsedTime = sub32 now r.startTime ∧
      Stopped (checkButtonState r sample now)) ∧
    (∀ s : State, Stopped s →
      (∀ now, runningUpdate s now = s) ∧
      (∀ sample now, ¬ IsRisingEdge s sample →
        (checkButtonState s sample now).elapsedTime = s.elapsedTime ∧
        Stopped (checkButtonState s sample now)) ∧
      (∀ as, actionEdges s.lastButtonState as = 0 →
        (exec s as).elapsedTime = s.elapsedTime ∧ Stopped (exec s as)) ∧
      (∀ i : LoopInput, risingEdges s.lastButtonState i.polls = 0 →
        (loop s i).elapsedTime = s.elapsedTime ∧ Stopped (loop s i)) ∧
      (∀ sample now, IsRisingEdge s sample →
        (checkButtonState s sample now).elapsedTime = 0 ∧
        (checkButtonState s sample now).buttonPressCount = 0)) := by
  refine ⟨?_, ?_⟩
  · intro r sample now hc he
    unfold IsRisingEdge at he
    unfold Stopped checkButtonState
    simp [he, hc, wrapInt]
  · intro s hs
    refine ⟨fun now => update_not_running s now hs.2, ?_, ?_, ?_, ?_⟩
    · intro sample now he
      exact stopped_of_stopwatch (check_no_edge_stopwatch s sample now he) hs
    · intro as has
      exact stopped_of_stopwatch (exec_no_edges_not_running s as hs.2 has) hs
    · intro i hi
      have h1 := exec_no_edges_not_running s i.actions hs.2
        (by rw [actionEdges_loop]; exact hi)
      exact stopped_of_stopwatch ((stopwatch_loop s i).trans h1) hs
    · intro sample now he
      unfold IsRisingEdge at he
      obtain ⟨hc, -⟩ := hs
      unfold checkButtonState
      simp [he, hc, wrapInt]

/-! ## Reset and restart -/

theorem check_first_press (t : State) (sample : Int) (now : Nat)
    (hc : t.buttonPressCount = 0) (hel : t.elapsedTime = 0) (he : IsRisingEdge t sample) :
    stopwatch (checkButtonState t sample now) = (1, true, now % U32, 0) := by
  unfold IsRisingEdge at he
  unfold stopwatch checkButtonState
  simp [he, hc, hel, wrapInt]

theorem check_third_press (s : State) (sample : Int) (now : Nat)
    (hs : Stopped s) (he : IsRisingEdge s sample) :
    stopwatch (checkButtonState s sample now) = (0, false, 0, 0) := by
  unfold IsRisingEdge at he
  obtain ⟨hc, -⟩ := hs
  unfold stopwatch checkButtonState
  simp [he, hc, wrapInt]

/-- C7: from any Stopped state the next rising edge resets the stopwatch
(counter 0, elapsed time 0, start time 0, not running); after any polls and
running updates without a rising edge, the following rising edge starts a new
Running phase: running, counter 1, start time equal to the clock reading of
that press, elapsed time 0, and the running update then yields the time since
that press. -/
theorem reset_then_fresh_start (s : State) (sample : Int) (now : Nat)
    (mid : List Action) (sample2 : Int) (now2 : Nat)
    (hs : Stopped s) (he : IsRisingEdge s sample)
    (hmid : actionEdges sample mid = 0)
    (he2 : IsRisingEdge (exec (checkButtonState s sample now) mid) sample2)
    (hnow2 : now2 < U32) :
    (checkButtonState s sample now).buttonPressCount = 0 ∧
    (checkButtonState s sample now).elapsedTime = 0 ∧
    (checkButtonState s sample now).startTime = 0 ∧
    (checkButtonState s sample now).running = false ∧
    (checkButtonState (exec (checkButtonState s sample now) mid) sample2 now2).running = true ∧
    (checkButtonState (exec (checkButtonState s sample now) mid) sample2 now2).buttonPressCount
      = 1 ∧
    (checkButtonState (exec (checkButtonState s sample now) mid) sample2 now2).startTime
      = now2 ∧
    (checkButtonState (exec (checkButtonState s sample now) mid) sample2 now2).elapsedTime
      = 0 ∧
    (∀ t, now2 ≤ t → t < U32 →
      (runningUpdate
        (checkButtonState (exec (checkButtonState s sample now) mid) sample2 now2) t).elapsedTime
        = t - now2) := by
  have hz : stopwatch (checkButtonState s sample now) = (0, false, 0, 0) :=
    check_third_press s sample now hs he
  have hzr : (checkButtonState s sample now).running = false := by
    have := congrArg (fun q => q.2.1) hz
    exact this
  have hm : stopwatch (exec (checkButtonState s sample now) mid) = (0, false, 0, 0) := by
    rw [exec_no_edges_not_running _ mid hzr (by rw [check_lastButtonState]; exact hmid)]
    exact hz
  simp only [stopwatch, Prod.mk.injEq] at hz hm
  obtain ⟨z1, z2, z3, z4⟩ := hz
  obtain ⟨m1, m2, m3, m4⟩ := hm
  have hmod : now2 % U32 = now2 := Nat.mod_eq_of_lt hnow2
  have hf : stopwatch (checkButtonState (exec (checkButtonState s sample now) mid) sample2 now2)
      = (1, true, now2, 0) := by
    rw [check_first_press _ sample2 now2 m1 m4 he2, hmod]
  simp only [stopwatch, Prod.mk.injEq] at hf
  obtain ⟨f1, f2, f3, f4⟩ := hf
  refine ⟨z1, z4, z3, z2, f2, f1, f3, f4, ?_⟩
  intro t h1 h2
  rw [update_running _ t f2, f3]
  unfold sub32
  unfold U32 at *
  rw [Nat.mod_eq_of_lt h2, Nat.mod_eq_of_lt hnow2]
  omega

theorem stoppedAt300_stopped : Stopped stoppedAt300 := by
  unfold Stopped
  decide

theorem reset_then_fresh_start_witness :
    Stopped stoppedAt300 ∧ IsRisingEdge stoppedAt300 HIGH ∧
    actionEdges HIGH [.check LOW 600, .update 650] = 0 ∧
    IsRisingEdge (exec (checkButtonState stoppedAt300 HIGH 500) [.check LOW 600, .update 650])
      HIGH ∧
    (700 : Nat) < U32 ∧
    (checkButtonState
      (exec (checkButtonState stoppedAt300 HIGH 500) [.check LOW 600, .update 650])
      HIGH 700).startTime = 700 :=
  ⟨stoppedAt300_stopped, by decide, by decide, by decide, by decide,
    (reset_then_fresh_start stoppedAt300 HIGH 500 [.check LOW 600, .update 650] HIGH 700
      stoppedAt300_stopped (by decide) (by decide) (by decide) (by decide)).2.2.2.2.2.2.1⟩

/-! ## Invariant of the reachable states -/

theorem update_inv (s : State) (now : Nat) (h : Inv s) : Inv (runningUpdate s now) := by
  obtain ⟨hc, hr, hz⟩ := h
  unfold runningUpdate
  split_ifs with h1
  · have h2 : s.buttonPressCount = 1 := hr.mp h1
    refine ⟨hc, hr, ?_⟩
    intro h0
    simp only at h0
    rw [h2] at h0
    omega
  · exact ⟨hc, hr, hz⟩

theorem exec_inv (s : State) (as : List Action) (h : Inv s) : Inv (exec s as) := by
  induction as generalizing s with
  | nil => exact h
  | cons a as ih =>
    cases a with
    | check sample now => exact ih _ (check_inv s sample now h).1
    | update now => exact ih _ (update_inv s now h)

/-- C10: every state reached from the initial state by any sequence of
`checkButtonState` calls and running updates, with arbitrary samples and clock
readings, has a press counter of 0, 1 or 2, is running exactly when the counter
is 1, and has zero elapsed time and start time when the counter is 0. -/
theorem reachable_invariant (as : List Action) :
    ((exec init as).buttonPressCount = 0 ∨ (exec init as).buttonPressCount = 1 ∨
      (exec init as).buttonPressCount = 2) ∧
    ((exec init as).running = true ↔ (exec init as).buttonPressCount = 1) ∧
    ((exec init as).buttonPressCount = 0 →
      (exec init as).elapsedTime = 0 ∧ (exec init as).startTime = 0) :=
  exec_inv init as init_inv

/-! ## The timer text -/

theorem callsOf_append (s t : State) (cs : List TftCall) (h : t.tft = s.tft ++ cs) :
    callsOf s t = cs := by
  unfold callsOf
  rw [h]
  exact List.drop_left _ _

theorem pad_lt (n : Nat) (h : n < 10) : "0" ++ Nat.repr n = twoDigits n := by
  interval_cases n <;> decide

theorem pad_ge (n : Nat) (h1 : 10 ≤ n) (h : n < 100) : Nat.repr n = twoDigits n := by
  interval_cases n <;> decide

theorem emit_eq (s : State) (c : TftCall) : emit s c = emitAll s [c] := rfl

theorem emitAll_emitAll (s : State) (a b : List TftCall) :
    emitAll (emitAll s a) b = emitAll s (a ++ b) := by
  simp [emitAll]

theorem ite_emitAll_append (c : Prop) [Decidable c] (s : State) (a b : List TftCall) :
    (if c then emitAll s (a ++ b) else emitAll s a) =
      emitAll s (a ++ if c then b else []) := by
  split_ifs
  · rfl
  · simp

theorem emitAll_prevElapsedTime (s : State) (a : List TftCall) :
    (emitAll s a).prevElapsedTime = s.prevElapsedTime := rfl

theorem emitAll_tft (s : State) (a : List TftCall) : (emitAll s a).tft = s.tft ++ a := rfl

theorem displayTime_tft (s : State) (elapsed : Nat) :
    (displayTime s elapsed).tft = s.tft ++
      ([.setCursor 44 130, .setTextColor .WHITE, .printUInt (s.prevElapsedTime / 60000),
        .printStr ":"] ++
       (if (s.prevElapsedTime / 1000) % 60 < 10 then [.printStr "0"] else []) ++
       [.printUInt ((s.prevElapsedTime / 1000) % 60), .printStr ":"] ++
       (if (s.prevElapsedTime % 1000) / 10 < 10 then [.printStr "0"] else []) ++
       [.printUInt ((s.prevElapsedTime % 1000) / 10),
        .setCursor 44 130, .setTextColor .BLACK, .printUInt ((elapsed / 60000) % 60),
        .printStr ":"] ++
       (if (elapsed / 1000) % 60 < 10 then [.printStr "0"] else []) ++
       [.printUInt ((elapsed / 1000) % 60), .printStr ":"] ++
       (if (elapsed % 1000) / 10 < 10 then [.printStr "0"] else []) ++
       [.printUInt ((elapsed % 1000) / 10)]) := by
  simp only [displayTime, emit_eq, emitAll_emitAll, emitAll_prevElapsedTime,
    ite_emitAll_append, emitAll_tft]
  simp only [List.append_assoc, List.cons_append, List.nil_append]

theorem str_append_empty (a : String) : a ++ "" = a := by
  apply String.ext
  simp

theorem str_empty_append (a : String) : "" ++ a = a := by
  apply String.ext
  simp

theorem str_append_assoc (a b c : String) : a ++ b ++ c = a ++ (b ++ c) := by
  apply String.ext
  simp

theorem drawn_text (fmt : F32 → Nat → String) (cur : Color) (s : State) (elapsed : Nat) :
    textIn fmt .BLACK cur (callsOf s (displayTime s elapsed)) =
      Nat.repr ((elapsed / 60000) % 60) ++ (":" ++ (twoDigits ((elapsed / 1000) % 60) ++
        (":" ++ twoDigits ((elapsed % 1000) / 10)))) := by
  rw [callsOf_append s _ _ (displayTime_tft s elapsed)]
  have hs : (elapsed / 1000) % 60 < 100 := by omega
  have hf : (elapsed % 1000) / 10 < 100 := by omega
  by_cases h3 : (elapsed / 1000) % 60 < 10 <;> by_cases h4 : (elapsed % 1000) / 10 < 10 <;>
    by_cases h1 : (s.prevElapsedTime / 1000) % 60 < 10 <;>
    by_cases h2 : (s.prevElapsedTime % 1000) / 10 < 10 <;>
    simp only [h1, h2, h3, h4, if_true, if_false, List.append_nil, List.cons_append,
      List.nil_append, textIn, TftCall.text, str_append_empty, str_empty_append,
      reduceCtorEq, ite_self] <;>
    first
      | rw [← pad_lt _ h3, ← pad_lt _ h4, str_append_assoc]
      | rw [← pad_lt _ h3, ← pad_ge _ (not_lt.mp h4) hf, str_append_assoc]
      | rw [← pad_ge _ (not_lt.mp h3) hs, ← pad_lt _ h4]
      | rw [← pad_ge _ (not_lt.mp h3) hs, ← pad_ge _ (not_lt.mp h4) hf]

theorem erased_text (fmt : F32 → Nat → String) (cur : Color) (s : State) (elapsed : Nat) :
    textIn fmt .WHITE cur (callsOf s (displayTime s elapsed)) =
      Nat.repr (s.prevElapsedTime / 60000) ++ (":" ++
        (twoDigits ((s.prevElapsedTime / 1000) % 60) ++
        (":" ++ twoDigits ((s.prevElapsedTime % 1000) / 10)))) := by
  rw [callsOf_append s _ _ (displayTime_tft s elapsed)]
  have hs : (s.prevElapsedTime / 1000) % 60 < 100 := by omega
  have hf : (s.prevElapsedTime % 1000) / 10 < 100 := by omega
  by_cases h3 : (elapsed / 1000) % 60 < 10 <;> by_cases h4 : (elapsed % 1000) / 10 < 10 <;>
    by_cases h1 : (s.prevElapsedTime / 1000) % 60 < 10 <;>
    by_cases h2 : (s.prevElapsedTime % 1000) / 10 < 10 <;>
    simp only [h1, h2, h3, h4, if_true, if_false, List.append_nil, List.cons_append,
      List.nil_append, textIn, TftCall.text, str_append_empty, str_empty_append,
      reduceCtorEq, ite_self] <;>
    first
      | rw [← pad_lt _ h1, ← pad_lt _ h2, str_append_assoc]
      | rw [← pad_lt _ h1, ← pad_ge _ (not_lt.mp h2) hf, str_append_assoc]
      | rw [← pad_ge _ (not_lt.mp h1) hs, ← pad_lt _ h2]
      | rw [← pad_ge _ (not_lt.mp h1) hs, ← pad_ge _ (not_lt.mp h2) hf]

/-! ## What a render block does to the cache and to the display -/

theorem shown_check (s : State) (sample : Int) (now : Nat) :
    shown (checkButtonState s sample now) = shown s := by
  unfold checkButtonState
  simp only
  split_ifs <;> rfl

theorem shown_update (s : State) (now : Nat) : shown (runningUpdate s now) = shown s := by
  unfold runningUpdate
  split_ifs <;> rfl

theorem shown_readCurrent (s : State) (adc : Nat) : shown (readCurrent s adc) = shown s := rfl

theorem shown_set_prevTempA2 (s : State) (v : F32) :
    shown { s with prevTempA2 := v } =
      (v, s.prevTempA3, s.prevVoltage, s.prevCurrent, s.prevElapsedTime, s.tft) := rfl

theorem shown_set_prevTempA3 (s : State) (v : F32) :
    shown { s with prevTempA3 := v } =
      (s.prevTempA2, v, s.prevVoltage, s.prevCurrent, s.prevElapsedTime, s.tft) := rfl

theorem shown_set_prevVoltage (s : State) (v : F32) :
    shown { s with prevVoltage := v } =
      (s.prevTempA2, s.prevTempA3, v, s.prevCurrent, s.prevElapsedTime, s.tft) := rfl

theorem shown_set_prevCurrent (s : State) (v : F32) :
    shown { s with prevCurrent := v } =
      (s.prevTempA2, s.prevTempA3, s.prevVoltage, v, s.prevElapsedTime, s.tft) := rfl

theorem shown_set_prevElapsedTime (s : State) (v : Nat) :
    shown { s with prevElapsedTime := v } =
      (s.prevTempA2, s.prevTempA3, s.prevVoltage, s.prevCurrent, v, s.tft) := rfl

theorem shown_emitAll (s : State) (cs : List TftCall) :
    shown (emitAll s cs) =
      (s.prevTempA2, s.prevTempA3, s.prevVoltage, s.prevCurrent, s.prevElapsedTime,
        s.tft ++ cs) := rfl

theorem shown_displayTime_cache (s : State) (elapsed : Nat) :
    ((displayTime s elapsed).prevTempA2, (displayTime s elapsed).prevTempA3,
      (displayTime s elapsed).prevVoltage, (displayTime s elapsed).prevCurrent,
      (displayTime s elapsed).prevElapsedTime) =
    (s.prevTempA2, s.prevTempA3, s.prevVoltage, s.prevCurrent, s.prevElapsedTime) := by
  simp only [displayTime, emit_eq, emitAll_emitAll, emitAll_prevElapsedTime,
    ite_emitAll_append]
  rfl

theorem shown_renderTempA2 (s : State) (v : F32) :
    shown (renderTempA2 s v) =
      (v, s.prevTempA3, s.prevVoltage, s.prevCurrent, s.prevElapsedTime,
        s.tft ++ if v ≠ s.prevTempA2 then
          redraw 55 10 (.printFloat s.prevTempA2 2) (.printFloat v 2) else []) := by
  by_cases h : v = s.prevTempA2
  · simp only [renderTempA2, h, ne_eq, not_true_eq_false, if_false, List.append_nil]
    rfl
  · simp only [renderTempA2, ne_eq, h, not_false_eq_true, if_true, emit_eq, emitAll_emitAll]
    rfl

theorem shown_renderTempA3 (s : State) (v : F32) :
    shown (renderTempA3 s v) =
      (s.prevTempA2, v, s.prevVoltage, s.prevCurrent, s.prevElapsedTime,
        s.tft ++ if v ≠ s.prevTempA3 then
          redraw 50 40 (.printFloat s.prevTempA3 2) (.printFloat v 2) else []) := by
  by_cases h : v = s.prevTempA3
  · simp only [renderTempA3, h, ne_eq, not_true_eq_false, if_false, List.append_nil]
    rfl
  · simp only [renderTempA3, ne_eq, h, not_false_eq_true, if_true, emit_eq, emitAll_emitAll]
    rfl

theorem shown_renderVoltage (s : State) (d : F32) :
    shown (renderVoltage s d) =
      (s.prevTempA2, s.prevTempA3, (if d ≠ s.prevVoltage then s.voltage_raw else s.prevVoltage),
        s.prevCurrent, s.prevElapsedTime,
        s.tft ++ if d ≠ s.prevVoltage then
          redraw 40 70 (.printFloat s.prevVoltage 3) (.printFloat s.voltage_raw 3) else []) := by
  by_cases h : d = s.prevVoltage
  · simp only [renderVoltage, h, ne_eq, not_true_eq_false, if_false, List.append_nil]
    rfl
  · simp only [renderVoltage, ne_eq, h, not_false_eq_true, if_true, emit_eq, emitAll_emitAll]
    rfl

theorem shown_renderCurrent (s : State) :
    shown (renderCurrent s) =
      (s.prevTempA2, s.prevTempA3, s.prevVoltage, s.current, s.prevElapsedTime,
        s.tft ++ if s.current ≠ s.prevCurrent then
          redraw 40 100 (.printFloat s.prevCurrent 2) (.printFloat s.current 2) else []) := by
  by_cases h : s.current = s.prevCurrent
  · simp only [renderCurrent, h, ne_eq, not_true_eq_false, if_false, List.append_nil]
    simp only [shown, h]
  · simp only [renderCurrent, ne_eq, h, not_false_eq_true, if_true, emit_eq, emitAll_emitAll]
    rfl

theorem shown_renderTimer (s : State) :
    shown (renderTimer s) =
      (s.prevTempA2, s.prevTempA3, s.prevVoltage, s.prevCurrent, s.elapsedTime,
        s.tft ++ if s.elapsedTime ≠ s.prevElapsedTime then
          callsOf s (displayTime s s.elapsedTime) else []) := by
  by_cases h : s.elapsedTime = s.prevElapsedTime
  · simp only [renderTimer, h, ne_eq, not_true_eq_false, if_false, List.append_nil]
    rfl
  · simp only [renderTimer, ne_eq, h, not_false_eq_true, if_true]
    rw [shown_set_prevElapsedTime, callsOf_append s _ _ (displayTime_tft s s.elapsedTime),
      displayTime_tft]
    have hc := shown_displayTime_cache s s.elapsedTime
    simp only [Prod.mk.injEq] at hc
    obtain ⟨h1, h2, h3, h4, -⟩ := hc
    rw [h1, h2, h3, h4]
    have he : (displayTime s s.elapsedTime).elapsedTime = s.elapsedTime := by
      have := congrArg (fun q => q.1.2.2.2) (core_displayTime s s.elapsedTime)
      exact this
    rw [he]

theorem callsOf_displayTime (s : State) (elapsed : Nat) :
    callsOf s (displayTime s elapsed) = timeCalls s.prevElapsedTime elapsed :=
  callsOf_append s _ _ (displayTime_tft s elapsed)

/-! ## The display calls of one iteration -/

theorem view_check {s : State} {X : (F32 × F32 × F32 × F32 × Nat × List TftCall) × (F32 × F32)}
    (h : dview s = X) (sample : Int) (now : Nat) :
    dview (checkButtonState s sample now) = X := by
  rw [← h, dview, dview, shown_check, sensed_check]

theorem view_update {s : State} {X : (F32 × F32 × F32 × F32 × Nat × List TftCall) × (F32 × F32)}
    (h : dview s = X) (now : Nat) :
    dview (runningUpdate s now) = X := by
  rw [← h, dview, dview, shown_update]
  congr 1
  unfold runningUpdate
  split_ifs <;> rfl

theorem view_readCurrent {s : State} {sh : F32 × F32 × F32 × F32 × Nat × List TftCall} {se : F32 × F32}
    (h : dview s = (sh, se)) (adc : Nat) :
    dview (readCurrent s adc) =
      (sh, (voltsOf adc, currentOf (voltsOf adc))) := by
  simp only [dview, Prod.mk.injEq] at h
  obtain ⟨h1, -⟩ := h
  rw [dview, shown_readCurrent, h1]
  simp only [sensed, readCurrent]

theorem view_renderTempA2 {s : State} {a b c d raw cur : F32} {e : Nat} {t : List TftCall}
    (h : dview s = ((a, b, c, d, e, t), (raw, cur))) (v : F32) :
    dview (renderTempA2 s v) =
      ((v, b, c, d, e, t ++ if v ≠ a then
        redraw 55 10 (.printFloat a 2) (.printFloat v 2) else []), (raw, cur)) := by
  rw [dview, shown_renderTempA2, sensed_renderTempA2]
  simp only [dview, shown, sensed, Prod.mk.injEq] at h
  obtain ⟨⟨h1, h2, h3, h4, h5, h6⟩, h7, h8⟩ := h
  rw [h1, h2, h3, h4, h5, h6, sensed, h7, h8]

theorem view_renderTempA3 {s : State} {a b c d raw cur : F32} {e : Nat} {t : List TftCall}
    (h : dview s = ((a, b, c, d, e, t), (raw, cur))) (v : F32) :
    dview (renderTempA3 s v) =
      ((a, v, c, d, e, t ++ if v ≠ b then
        redraw 50 40 (.printFloat b 2) (.printFloat v 2) else []), (raw, cur)) := by
  rw [dview, shown_renderTempA3, sensed_renderTempA3]
  simp only [dview, shown, sensed, Prod.mk.injEq] at h
  obtain ⟨⟨h1, h2, h3, h4, h5, h6⟩, h7, h8⟩ := h
  rw [h1, h2, h3, h4, h5, h6, sensed, h7, h8]

theorem view_renderVoltage {s : State} {a b c d raw cur : F32} {e : Nat} {t : List TftCall}
    (h : dview s = ((a, b, c, d, e, t), (raw, cur))) (diff : F32) :
    dview (renderVoltage s diff) =
      ((a, b, (if diff ≠ c then raw else c), d, e, t ++ if diff ≠ c then
        redraw 40 70 (.printFloat c 3) (.printFloat raw 3) else []), (raw, cur)) := by
  rw [dview, shown_renderVoltage, sensed_renderVoltage]
  simp only [dview, shown, sensed, Prod.mk.injEq] at h
  obtain ⟨⟨h1, h2, h3, h4, h5, h6⟩, h7, h8⟩ := h
  rw [h1, h2, h3, h4, h5, h6, sensed, h7, h8]

theorem view_renderCurrent {s : State} {a b c d raw cur : F32} {e : Nat} {t : List TftCall}
    (h : dview s = ((a, b, c, d, e, t), (raw, cur))) :
    dview (renderCurrent s) =
      ((a, b, c, cur, e, t ++ if cur ≠ d then
        redraw 40 100 (.printFloat d 2) (.printFloat cur 2) else []), (raw, cur)) := by
  rw [dview, shown_renderCurrent, sensed_renderCurrent]
  simp only [dview, shown, sensed, Prod.mk.injEq] at h
  obtain ⟨⟨h1, h2, h3, h4, h5, h6⟩, h7, h8⟩ := h
  rw [h1, h2, h3, h4, h5, h6, sensed, h7, h8]

theorem view_renderTimer {s : State} {a b c d raw cur : F32} {e : Nat} {t : List TftCall}
    (h : dview s = ((a, b, c, d, e, t), (raw, cur))) :
    dview (renderTimer s) =
      ((a, b, c, d, (renderTimer s).elapsedTime,
        t ++ if (renderTimer s).elapsedTime ≠ e then
          timeCalls e (renderTimer s).elapsedTime else []), (raw, cur)) := by
  have he : (renderTimer s).elapsedTime = s.elapsedTime := by
    have := congrArg (fun q => q.1.2.2.2) (core_renderTimer s)
    exact this
  rw [he, dview, shown_renderTimer, sensed_renderTimer, callsOf_displayTime]
  simp only [dview, shown, sensed, Prod.mk.injEq] at h
  obtain ⟨⟨h1, h2, h3, h4, h5, h6⟩, h7, h8⟩ := h
  rw [h1, h2, h3, h4, h5, h6, sensed, h7, h8]

theorem loop_view (s : State) (i : LoopInput) :
    dview (loop s i) =
      ((i.tempA2, i.tempA3,
        (if voltsOf i.adc - QOV ≠ s.prevVoltage then voltsOf i.adc
          else s.prevVoltage),
        currentOf (voltsOf i.adc),
        (loop s i).elapsedTime,
        ((((s.tft ++
          (if i.tempA2 ≠ s.prevTempA2 then
            redraw 55 10 (.printFloat s.prevTempA2 2) (.printFloat i.tempA2 2) else [])) ++
          (if i.tempA3 ≠ s.prevTempA3 then
            redraw 50 40 (.printFloat s.prevTempA3 2) (.printFloat i.tempA3 2) else [])) ++
          (if voltsOf i.adc - QOV ≠ s.prevVoltage then
            redraw 40 70 (.printFloat s.prevVoltage 3)
              (.printFloat (voltsOf i.adc) 3) else [])) ++
          (if currentOf (voltsOf i.adc) ≠ s.prevCurrent then
            redraw 40 100 (.printFloat s.prevCurrent 2)
              (.printFloat (currentOf (voltsOf i.adc)) 2) else [])) ++
          (if (loop s i).elapsedTime ≠ s.prevElapsedTime then
            timeCalls s.prevElapsedTime (loop s i).elapsedTime else [])),
       (voltsOf i.adc, currentOf (voltsOf i.adc))) :=
  view_renderTimer (view_check (view_renderCurrent (view_check (view_renderVoltage
    (view_check (view_renderTempA3 (view_check (view_renderTempA2 (view_check
      (view_readCurrent (view_check (view_check (view_update (view_check
        (rfl : dview s = ((s.prevTempA2, s.prevTempA3, s.prevVoltage, s.prevCurrent,
          s.prevElapsedTime, s.tft), (s.voltage_raw, s.current)))
        i.p1.sample i.p1.now) i.nowRun) i.p2.sample i.p2.now) i.p3.sample i.p3.now) i.adc)
      i.p4.sample i.p4.now) i.tempA2) i.p5.sample i.p5.now) i.tempA3) i.p6.sample i.p6.now)
    (voltsOf i.adc - QOV)) i.p7.sample i.p7.now)) i.p8.sample i.p8.now)

/-! ## The timer text: format, and erase against draw -/

/-- C8: the text `displayTime` draws in the foreground colour is the minutes
`(elapsed / 60000) mod 60` in decimal, a colon, the seconds
`(elapsed / 1000) mod 60` as two digits, a colon, and the hundredths
`(elapsed mod 1000) / 10` as two digits; two digits means a leading zero below
10; seconds are below 60 and hundredths below 100; 65432 ms is drawn as
`1:05:43`. -/
theorem timer_text_format (fmt : F32 → Nat → String) (cur : Color) (s : State) (elapsed : Nat) :
    textIn fmt .BLACK cur (callsOf s (displayTime s elapsed)) =
      Nat.repr ((elapsed / 60000) % 60) ++ ":" ++ twoDigits ((elapsed / 1000) % 60) ++ ":" ++
        twoDigits ((elapsed % 1000) / 10) ∧
    (elapsed / 1000) % 60 < 60 ∧ (elapsed % 1000) / 10 < 100 ∧
    (∀ n, n < 10 → twoDigits n = "0" ++ Nat.repr n) ∧
    (∀ n, 10 ≤ n → n < 100 → twoDigits n = Nat.repr n) ∧
    textIn fmt .BLACK cur (callsOf s (displayTime s 65432)) = "1:05:43" := by
  refine ⟨?_, by omega, by omega, fun n h => (pad_lt n h).symm,
    fun n h1 h2 => (pad_ge n h1 h2).symm, ?_⟩
  · rw [drawn_text]
    simp only [str_append_assoc]
  · rw [drawn_text]
    decide

theorem core_exec_congr (s t : State) (as : List Action) (h : core s = core t) :
    core (exec s as) = core (exec t as) := by
  induction as generalizing s t with
  | nil => exact h
  | cons a as ih =>
    cases a with
    | check sample now => exact ih _ _ (core_check_congr s t sample now h)
    | update now => exact ih _ _ (core_update_congr s t now h)

theorem afterOneHour_cache : afterOneHour.prevElapsedTime = 3600000 := by
  have v := loop_view (loop init pressInput) hourInput
  simp only [dview, shown, Prod.mk.injEq] at v
  obtain ⟨⟨-, -, -, -, v5, -⟩, -⟩ := v
  have c := (core_loop (loop init pressInput) hourInput).trans
    (core_exec_congr _ _ hourInput.actions (core_loop init pressInput))
  have e : (loop (loop init pressInput) hourInput).elapsedTime =
      (exec (exec init pressInput.actions) hourInput.actions).elapsedTime :=
    congrArg (fun q => q.1.2.2.2) c
  rw [afterOneHour, v5, e]
  decide

/-- C9 fails at one hour: the stopwatch is started and one hour later the timer
field is drawn for the elapsed time 3600000 ms, which becomes the cached value;
the foreground text drawn for 3600000 is `0:00:00`, but on the next redraw the
erase pass prints `60:00:00` in the background colour, because it prints the
minutes without the reduction modulo 60 that the draw pass applies. -/
theorem erase_text_differs_at_one_hour (fmt : F32 → Nat → String) (cur : Color) (s : State)
    (elapsed : Nat) :
    afterOneHour.prevElapsedTime = 3600000 ∧
    textIn fmt .BLACK cur (callsOf s (displayTime s 3600000)) = "0:00:00" ∧
    textIn fmt .WHITE cur (callsOf afterOneHour (displayTime afterOneHour elapsed))
      = "60:00:00" := by
  refine ⟨afterOneHour_cache, ?_, ?_⟩
  · rw [drawn_text]
    decide
  · rw [erased_text, afterOneHour_cache]
    decide

theorem erase_text_matches_below_one_hour (fmt : F32 → Nat → String) (cur cur2 : Color)
    (s t : State) (elapsed : Nat) (h : s.prevElapsedTime < 3600000) :
    textIn fmt .WHITE cur (callsOf s (displayTime s elapsed)) =
      textIn fmt .BLACK cur2 (callsOf t (displayTime t s.prevElapsedTime)) := by
  rw [erased_text, drawn_text]
  have : s.prevElapsedTime / 60000 % 60 = s.prevElapsedTime / 60000 := by omega
  rw [this]

/-! ## The render blocks of an iteration -/

theorem quiet_loop_core (s : State) (hr : s.running = false) (hl : s.lastButtonState = LOW) :
    core (loop s quietInput) = core s := by
  rw [core_loop]
  have h1 : stopwatch (exec s quietInput.actions) = stopwatch s :=
    exec_no_edges_not_running s quietInput.actions hr (by rw [hl]; decide)
  have h2 : (exec s quietInput.actions).lastButtonState = LOW := by
    simp only [quietInput, LoopInput.actions, exec, step, check_lastButtonState]
  rw [core, h1, h2, core, hl]

theorem voltsOf_512 : voltsOf 512 = F32.dyadic 5248005 21 := by decide

/-- C4 fails for the voltage field: after an iteration with no button press,
20 °C on both probes and ADC count 512, the cached voltage is the sampled
voltage, 5248005/2^21; a second iteration with the same inputs has the same
live voltage, yet it issues the erase-then-draw pair of the voltage field (and
nothing else), because the block compares `voltage_diff` and not `voltage_raw`
with the cache. -/
theorem voltage_redrawn_though_unchanged :
    (loop init quietInput).prevVoltage = F32.dyadic 5248005 21 ∧
    (loop (loop init quietInput) quietInput).voltage_raw = F32.dyadic 5248005 21 ∧
    callsOf (loop init quietInput) (loop (loop init quietInput) quietInput) =
      redraw 40 70 (.printFloat (F32.dyadic 5248005 21) 3)
        (.printFloat (F32.dyadic 5248005 21) 3) := by
  have c1 := quiet_loop_core init rfl rfl
  have hr1 : (loop init quietInput).running = false :=
    congrArg (fun q => q.1.2.1) c1
  have hl1 : (loop init quietInput).lastButtonState = LOW :=
    congrArg (fun q => q.2) c1
  have he1 : (loop init quietInput).elapsedTime = 0 :=
    congrArg (fun q => q.1.2.2.2) c1
  have c2 := quiet_loop_core (loop init quietInput) hr1 hl1
  have he2 : (loop (loop init quietInput) quietInput).elapsedTime = 0 :=
    (congrArg (fun q => q.1.2.2.2) c2).trans he1
  have v1 := loop_view init quietInput
  simp only [dview, shown, sensed, Prod.mk.injEq] at v1
  obtain ⟨⟨a1, a2, a3, a4, a5, a6⟩, -, -⟩ := v1
  have hv : voltsOf quietInput.adc = F32.dyadic 5248005 21 := voltsOf_512
  have hd1 : F32.dyadic 5248005 21 - QOV ≠ init.prevVoltage := by decide
  have hd2 : F32.dyadic 5248005 21 - QOV ≠ F32.dyadic 5248005 21 := by decide
  have a3' : (loop init quietInput).prevVoltage = F32.dyadic 5248005 21 := by
    rw [a3, hv, if_pos hd1]
  have v2 := loop_view (loop init quietInput) quietInput
  simp only [dview, shown, sensed, Prod.mk.injEq] at v2
  obtain ⟨⟨-, -, -, -, -, b6⟩, b7, -⟩ := v2
  refine ⟨a3', ?_, ?_⟩
  · rw [b7, hv]
  · apply callsOf_append
    rw [b6, a1, a2, a4, a5, he1, he2, a3', hv]
    rw [if_neg (by simp), if_neg (by simp), if_pos hd2, if_neg (by simp),
      if_neg (by simp)]
    simp only [List.append_nil]

end Monitor
